import Mathlib

/-!
Verification of the LightSignalDetector traffic-light application
(`src/app/main.cpp`, with `src/app/example.cpp` as the earlier evolution).

The embedding models:
* `AppConfig` — the configuration record (struct `AppConfig`, main.cpp:63-71),
  with the compiled-in defaults;
* `load_config` — the JSON merge performed by `load_config` (main.cpp:100-124):
  each field is assigned from `j.value(key, default)` sequentially inside a
  try-block, so a field whose JSON value has the wrong type throws and leaves
  the assignments made so far in place;
* `handle_save_config` — the control endpoint (main.cpp:139-167);
* the per-frame classification decision (main.cpp:407-474): ROI bounds check,
  the brightest-candidate scan over the three lamp aggregates, thresholding,
  and the annotation marker colour.

Brightness aggregates (`mean(cropped_y, mask)[0]`) are produced by the external
image-processing library (OpenCV); following the design they are passed to the
classifier as an oracle `Fin 3 → ℚ` of exact mean values.
-/

/-- The four states the detector can report (main.cpp:405, 452-454). -/
inductive TrafficState where
  | RED
  | YELLOW
  | GREEN
  | UNKNOWN
  deriving DecidableEq, Repr

/-- Configuration record, mirroring struct `AppConfig` (main.cpp:63-71)
with the compiled-in default values. -/
structure AppConfig where
  master_roi_x : ℤ := 385
  master_roi_y : ℤ := 207
  master_roi_width : ℤ := 82
  master_roi_height : ℤ := 315
  red_x : ℤ := 42
  red_y : ℤ := 33
  yellow_x : ℤ := 40
  yellow_y : ℤ := 154
  green_x : ℤ := 40
  green_y : ℤ := 251
  lamp_radius : ℤ := 37
  min_brightness_threshold : ℤ := 80
  deriving DecidableEq, Repr

/-- The compiled-in configuration (all struct initialisers). -/
def defaultConfig : AppConfig := {}

/-- One JSON field of a parsed configuration document, as consumed by
`nlohmann::json::value(key, default)`: the key may be absent (the default is
used), hold an integer, or hold a value of the wrong JSON type, in which case
`value` throws a `type_error` that aborts the surrounding try-block. -/
inductive JField where
  | absent
  | int (v : ℤ)
  | wrong
  deriving DecidableEq, Repr

/-- A parsed configuration document: one `JField` per key that
`load_config` reads (main.cpp:108-119). Keys not read by the code are
irrelevant and not modelled. -/
structure ConfigDoc where
  master_roi_x : JField := .absent
  master_roi_y : JField := .absent
  master_roi_width : JField := .absent
  master_roi_height : JField := .absent
  red_x : JField := .absent
  red_y : JField := .absent
  yellow_x : JField := .absent
  yellow_y : JField := .absent
  green_x : JField := .absent
  green_y : JField := .absent
  lamp_radius : JField := .absent
  min_brightness_threshold : JField := .absent
  deriving DecidableEq, Repr

/-- One assignment `g_config.field = j.value(key, default)`: `none` models the
`type_error` thrown when the key holds a value of the wrong type. -/
def jAssign (f : JField) (dflt : ℤ) (set : ℤ → AppConfig) : Option AppConfig :=
  match f with
  | .absent => some (set dflt)
  | .int v => some (set v)
  | .wrong => none

/-- The try-block body of `load_config` (main.cpp:104-119): the twelve field
assignments in source order. A thrown `type_error` is caught at main.cpp:120,
so the configuration keeps every assignment made before the throwing one.
Note the source's fallback for `yellow_y` is `g_config.yellow_x`
(main.cpp:115). -/
def applyFields (j : ConfigDoc) (g : AppConfig) : AppConfig :=
  match jAssign j.master_roi_x g.master_roi_x (fun v => { g with master_roi_x := v }) with
  | none => g
  | some g =>
  match jAssign j.master_roi_y g.master_roi_y (fun v => { g with master_roi_y := v }) with
  | none => g
  | some g =>
  match jAssign j.master_roi_width g.master_roi_width (fun v => { g with master_roi_width := v }) with
  | none => g
  | some g =>
  match jAssign j.master_roi_height g.master_roi_height (fun v => { g with master_roi_height := v }) with
  | none => g
  | some g =>
  match jAssign j.red_x g.red_x (fun v => { g with red_x := v }) with
  | none => g
  | some g =>
  match jAssign j.red_y g.red_y (fun v => { g with red_y := v }) with
  | none => g
  | some g =>
  match jAssign j.yellow_x g.yellow_x (fun v => { g with yellow_x := v }) with
  | none => g
  | some g =>
  match jAssign j.yellow_y g.yellow_x (fun v => { g with yellow_y := v }) with
  | none => g
  | some g =>
  match jAssign j.green_x g.green_x (fun v => { g with green_x := v }) with
  | none => g
  | some g =>
  match jAssign j.green_y g.green_y (fun v => { g with green_y := v }) with
  | none => g
  | some g =>
  match jAssign j.lamp_radius g.lamp_radius (fun v => { g with lamp_radius := v }) with
  | none => g
  | some g =>
  match jAssign j.min_brightness_threshold g.min_brightness_threshold (fun v => { g with min_brightness_threshold := v }) with
  | none => g
  | some g => g

/-- `load_config` (main.cpp:100-124). `none` stands for an unreadable file or a
body on which `nlohmann::json::parse` throws — both leave the configuration
untouched, since the parse happens before any assignment. -/
def load_config (p : Option ConfigDoc) (g : AppConfig) : AppConfig :=
  match p with
  | none => g
  | some j => applyFields j g

/-! ## Control endpoint (`handle_save_config`, main.cpp:139-167) -/

/-- HTTP response classes the endpoint can produce. -/
inductive HttpResp where
  | ok200
  | badRequest400
  deriving DecidableEq, Repr

/-- Observable effect of one call to `handle_save_config`: the response class,
the body written to `config.json` (if any), and whether the reload flag was
set. -/
structure SaveEffect where
  resp : HttpResp
  written : Option (List Char)
  reloadSet : Bool
  deriving DecidableEq, Repr

/-- `full_request.find("\r\n\r\n")` followed by `substr(json_start + 4)`
(main.cpp:141-143): the request body after the first header separator, or
`none` when the separator does not occur. -/
def findBody : List Char → Option (List Char)
  | '\r' :: '\n' :: '\r' :: '\n' :: rest => some rest
  | _ :: rest => findBody rest
  | [] => none

/-- `handle_save_config` (main.cpp:139-167). The body, when present and
non-empty, is written to the config file verbatim and the reload flag is set;
no parsing or validation of the body happens here. -/
def handle_save_config (req : List Char) : SaveEffect :=
  match findBody req with
  | some body =>
      if body = [] then ⟨.badRequest400, none, false⟩
      else ⟨.ok200, some body, true⟩
  | none => ⟨.badRequest400, none, false⟩

/-! ## The reload flag and the classification loop head (main.cpp:365-370) -/

/-- Cross-thread state relevant to config reloading: the atomic
`g_reload_config_flag`, the persisted `config.json` (already as the outcome of
parsing it: `none` = unreadable/unparsable), and the in-memory `g_config`. -/
structure LoopState where
  flag : Bool
  file : Option ConfigDoc
  config : AppConfig
  deriving DecidableEq, Repr

/-- The state effect of one accepted upload (main.cpp:146-152): the file is
replaced wholesale by the new body and the reload flag is set. -/
def postConfig (s : LoopState) (p : Option ConfigDoc) : LoopState :=
  { s with file := p, flag := true }

/-- The head of each classification-loop iteration (main.cpp:367-370): if the
flag is set, reload from the file exactly once and clear the flag. Returns the
new state and the number of reloads performed. -/
def checkReload (s : LoopState) : LoopState × ℕ :=
  if s.flag then ({ s with config := load_config s.file s.config, flag := false }, 1)
  else (s, 0)

/-! ## Frame classification decision (main.cpp:403-474) -/

/-- The ROI validity check of main.cpp:408-411, parameterised by the frame
dimensions (fixed to 1280x720 in the source). -/
def masterRoiOutOfBounds (frameW frameH : ℤ) (c : AppConfig) : Bool :=
  decide (c.master_roi_width ≤ 0) || decide (c.master_roi_height ≤ 0) ||
  decide (c.master_roi_x < 0) || decide (c.master_roi_y < 0) ||
  decide (c.master_roi_x + c.master_roi_width > frameW) ||
  decide (c.master_roi_y + c.master_roi_height > frameH)

/-- One step of the brightest-candidate scan (main.cpp:444-447): the running
pair is `(brightest_idx, max_luma)`, updated only on a strict increase. -/
def scanStep (acc : ℤ × ℚ) (i : ℤ) (v : ℚ) : ℤ × ℚ :=
  if v > acc.2 then (i, v) else acc

/-- The loop of main.cpp:436-448 on the three aggregates, starting from
`brightest_idx = -1`, `max_luma = 0.0` (main.cpp:431-432). -/
def brightestScan (l : Fin 3 → ℚ) : ℤ × ℚ :=
  scanStep (scanStep (scanStep ((-1 : ℤ), (0 : ℚ)) 0 (l 0)) 1 (l 1)) 2 (l 2)

/-- The state decision of main.cpp:450-455: label by index only when the
maximum aggregate strictly exceeds the threshold; otherwise the state keeps
its default `"UNKNOWN"`. -/
def classifyFromLumas (l : Fin 3 → ℚ) (threshold : ℤ) : TrafficState :=
  let r := brightestScan l
  if r.2 > (threshold : ℚ) then
    if r.1 = 0 then .RED
    else if r.1 = 1 then .YELLOW
    else if r.1 = 2 then .GREEN
    else .UNKNOWN
  else .UNKNOWN

/-- BGR colour of the feedback circle (main.cpp:469-472). -/
def markerColor : TrafficState → ℤ × ℤ × ℤ
  | .RED => (0, 0, 255)
  | .YELLOW => (0, 255, 255)
  | .GREEN => (0, 255, 0)
  | .UNKNOWN => (128, 128, 128)

/-- The per-frame decision (main.cpp:407-474): bounds check, then either the
short-circuit gray marker (main.cpp:414-416) or the aggregate scan and the
state-coloured marker. The three mean aggregates come from the external
image-processing library and are passed as the oracle `lumas`. -/
def classifyFrame (frameW frameH : ℤ) (c : AppConfig) (lumas : Fin 3 → ℚ) :
    TrafficState × (ℤ × ℤ × ℤ) :=
  if masterRoiOutOfBounds frameW frameH c then (.UNKNOWN, (128, 128, 128))
  else
    let s := classifyFromLumas lumas c.min_brightness_threshold
    (s, markerColor s)

/-- The fixed label ordering 0→RED, 1→YELLOW, 2→GREEN. -/
def labelOf : Fin 3 → TrafficState
  | 0 => .RED
  | 1 => .YELLOW
  | 2 => .GREEN

/-! ## Configuration-document parsing

The JSON library (`json.hpp`, nlohmann) is vendored by the repository but is
not under `src/`; the parser below is modelled from the spec instead. -/

/-- Modelled from the spec: whitespace skipping of the JSON grammar used by
the missing `json.hpp` parser. -/
def skipWs : List Char → List Char
  | [] => []
  | c :: r => if c = ' ' ∨ c = '\t' ∨ c = '\n' ∨ c = '\r' then skipWs r else c :: r

/-- Modelled from the spec: decimal digit accumulation for integer literals
of the missing `json.hpp` parser. -/
def parseDigitsAux : List Char → ℕ → ℕ × List Char
  | c :: r, acc => if c.isDigit then parseDigitsAux r (10 * acc + (c.toNat - 48)) else (acc, c :: r)
  | [], acc => (acc, [])

/-- Modelled from the spec: an optionally-signed integer literal of the
missing `json.hpp` parser. -/
def parseIntTok : List Char → Option (ℤ × List Char)
  | '-' :: c :: r =>
      if c.isDigit then
        let p := parseDigitsAux (c :: r) 0
        some (-(p.1 : ℤ), p.2)
      else none
  | c :: r =>
      if c.isDigit then
        let p := parseDigitsAux (c :: r) 0
        some ((p.1 : ℤ), p.2)
      else none
  | [] => none

/-- Modelled from the spec: the characters of a (escape-free) JSON string key
up to its closing quote, for the missing `json.hpp` parser. -/
def takeKeyChars : List Char → Option (List Char × List Char)
  | [] => none
  | '"' :: r => some ([], r)
  | c :: r =>
      match takeKeyChars r with
      | some (k, rest) => some (c :: k, rest)
      | none => none

/-- Modelled from the spec: one `"key": integer` member of a configuration
document (fields are all integers), for the missing `json.hpp` parser. -/
def parsePair (s : List Char) : Option ((List Char × ℤ) × List Char) :=
  match skipWs s with
  | '"' :: r =>
      match takeKeyChars r with
      | some (k, rest) =>
          match skipWs rest with
          | ':' :: r2 =>
              match parseIntTok (skipWs r2) with
              | some (v, rest2) => some ((k, v), rest2)
              | none => none
          | _ => none
      | none => none
  | _ => none

/-- Modelled from the spec: the comma-separated members of a configuration
object up to the closing brace, for the missing `json.hpp` parser. The fuel
argument bounds recursion by the input length. -/
def parsePairsAux : ℕ → List Char → List (List Char × ℤ) →
    Option (List (List Char × ℤ) × List Char)
  | 0, _, _ => none
  | fuel + 1, s, acc =>
      match parsePair s with
      | none => none
      | some (kv, rest) =>
          match skipWs rest with
          | ',' :: r2 => parsePairsAux fuel r2 (acc ++ [kv])
          | '\x7d' :: r2 => some (acc ++ [kv], r2)
          | _ => none

/-- Key lookup in the parsed member list: present keys become `JField.int`,
missing ones `JField.absent`. -/
def lookupKey (kvs : List (List Char × ℤ)) (k : String) : JField :=
  match kvs.find? (fun p => p.1 == k.data) with
  | some p => .int p.2
  | none => .absent

/-- The parsed member list as a `ConfigDoc` for the twelve keys
`load_config` reads. -/
def docOfPairs (kvs : List (List Char × ℤ)) : ConfigDoc :=
  { master_roi_x := lookupKey kvs "master_roi_x"
    master_roi_y := lookupKey kvs "master_roi_y"
    master_roi_width := lookupKey kvs "master_roi_width"
    master_roi_height := lookupKey kvs "master_roi_height"
    red_x := lookupKey kvs "red_x"
    red_y := lookupKey kvs "red_y"
    yellow_x := lookupKey kvs "yellow_x"
    yellow_y := lookupKey kvs "yellow_y"
    green_x := lookupKey kvs "green_x"
    green_y := lookupKey kvs "green_y"
    lamp_radius := lookupKey kvs "lamp_radius"
    min_brightness_threshold := lookupKey kvs "min_brightness_threshold" }

/-- Modelled from the spec: parsing a configuration document — a flat JSON
object whose fields are all integers (spec §6) — standing in for the missing
`json.hpp` parser plus the `j.value` reads. `none` covers every body on which
`load_config` performs no assignment (parse error, or a non-object top level,
whose first `j.value` call throws before any assignment). Documents with
duplicate keys, escapes in keys, or nested values are outside the modelled
subset. -/
def parseConfigBody (s : List Char) : Option ConfigDoc :=
  match skipWs s with
  | '\x7b' :: r =>
      match skipWs r with
      | '\x7d' :: rest => if skipWs rest = [] then some {} else none
      | _ =>
          match parsePairsAux (r.length + 1) r [] with
          | some (kvs, rest) => if skipWs rest = [] then some (docOfPairs kvs) else none
          | none => none
  | _ => none

/-! ## Claims C1-C3: configuration upload and merge -/

/-- C1: the claim says an upload whose body is exactly `"lamp_radius": 20`
(wrapped in braces) keeps every omitted field at its previous value. The code
violates this: main.cpp:115 reads `j.value("yellow_y", g_config.yellow_x)`, so
an upload that omits `yellow_y` overwrites it with the value of `yellow_x` —
a copy-paste slip, contradicting the code's own comment (main.cpp:107) and the
earlier evolution (example.cpp:56), which use each field's own previous value.
Evaluation at the failing input, prior snapshot = compiled-in defaults: the
next snapshot has `lamp_radius` 20 but `yellow_y` changed from 154 to 40. -/
theorem C1_lamp_radius_upload_changes_yellow_y :
    load_config (parseConfigBody "\x7b\"lamp_radius\": 20\x7d".data) defaultConfig =
      { defaultConfig with lamp_radius := 20, yellow_y := 40 } ∧
    defaultConfig.yellow_y = 154 ∧ defaultConfig.yellow_x = 40 := by decide

/-- Document used by the C2 counterexample: a well-parsed object whose
`master_roi_x` is 999, whose `red_x` holds a value of the wrong JSON type, and
whose `lamp_radius` is 20. -/
def c2Doc : ConfigDoc := { master_roi_x := .int 999, red_x := .wrong, lamp_radius := .int 20 }

/-- C2 counterexample: replacing the stored configuration is not all-or-nothing.
On `c2Doc` the code applies the `master_roi_x := 999` assignment, then the
`j.value` read of the ill-typed `red_x` throws, the catch at main.cpp:120 keeps
the state reached so far, and `lamp_radius := 20` is never applied: the stored
configuration ends up partially updated (neither unchanged nor fully applied). -/
theorem C2_partial_update_counterexample :
    (load_config (some c2Doc) defaultConfig).master_roi_x = 999 ∧
    (load_config (some c2Doc) defaultConfig).lamp_radius = 37 ∧
    c2Doc.lamp_radius = .int 20 ∧
    load_config (some c2Doc) defaultConfig ≠ defaultConfig := by decide

/-- C2 amended: a configuration document that fails to parse (the
`nlohmann::json::parse` at main.cpp:104 throws before any assignment, as does
an unreadable file) leaves the stored configuration exactly unchanged; but a
document that parses and contains an ill-typed field can leave the store
partially updated — the assignments before that field take effect, the rest do
not. -/
theorem C2_parse_failure_leaves_config_unchanged (g : AppConfig) :
    load_config none g = g := rfl

/-- C3 counterexample: an upload whose body `@@@` fails to parse as a
configuration document is nevertheless answered with success: the endpoint
writes the body to `config.json` verbatim and sets the reload flag
(main.cpp:144-155 never parses or validates the body). The claim requires a
client-error response with no state mutation for such a body. -/
theorem C3_unparsed_body_accepted_counterexample :
    parseConfigBody "@@@".data = none ∧
    handle_save_config ("POST /local/tld/api/save_config HTTP/1.1\r\n\r\n@@@".data) =
      ⟨.ok200, some "@@@".data, true⟩ := by decide

/-- C3 amended: the endpoint performs no parsing or validation at all. Every
request with a non-empty body is accepted: the body is persisted verbatim to
`config.json`, the reload signal is set, and success is returned — whether or
not the body parses as a configuration document. A client error (with no state
mutation) is returned only when the header separator is missing or the body is
empty. -/
theorem C3_nonempty_body_always_accepted (req body : List Char)
    (h : findBody req = some body) (hne : body ≠ []) :
    handle_save_config req = ⟨.ok200, some body, true⟩ := by
  unfold handle_save_config
  rw [h]
  simp [hne]

/-- Witness for C3 amended, at a concrete request with the non-empty body
consisting of an empty JSON object. -/
theorem C3_nonempty_body_always_accepted_witness :
    handle_save_config ("POST /x HTTP/1.1\r\n\r\n\x7b\x7d".data) =
      ⟨.ok200, some "\x7b\x7d".data, true⟩ :=
  C3_nonempty_body_always_accepted ("POST /x HTTP/1.1\r\n\r\n\x7b\x7d".data)
    ("\x7b\x7d".data) (by decide) (by decide)

/-! ## Claims C4-C7, C10: the per-frame classification decision -/

/-- C4: for every frame and every config whose master region lies inside the
frame bounds with threshold T, if every candidate brightness aggregate is at
most T (in particular the largest one), the classification result is UNKNOWN,
regardless of which candidate was brightest (main.cpp:431-455). -/
theorem C4_below_threshold_unknown (frameW frameH : ℤ) (c : AppConfig) (l : Fin 3 → ℚ)
    (hin : masterRoiOutOfBounds frameW frameH c = false)
    (hle : ∀ i : Fin 3, l i ≤ (c.min_brightness_threshold : ℚ)) :
    (classifyFrame frameW frameH c l).1 = .UNKNOWN := by
  have h0 := hle 0
  have h1 := hle 1
  have h2 := hle 2
  simp only [classifyFrame, hin, Bool.false_eq_true, if_false, classifyFromLumas,
    brightestScan, scanStep]
  split_ifs <;> simp_all <;> linarith [hle 0, hle 1, hle 2]

/-- Witness for C4 at the default config, a 1280x720 frame and aggregates
(10, 20, 30), all at most the threshold 80. -/
theorem C4_below_threshold_unknown_witness :
    masterRoiOutOfBounds 1280 720 defaultConfig = false ∧
    (∀ i : Fin 3, (![10, 20, 30] : Fin 3 → ℚ) i ≤ (defaultConfig.min_brightness_threshold : ℚ)) ∧
    (classifyFrame 1280 720 defaultConfig ![10, 20, 30]).1 = .UNKNOWN :=
  ⟨by decide, by decide,
    C4_below_threshold_unknown 1280 720 defaultConfig ![10, 20, 30] (by decide) (by decide)⟩

set_option maxHeartbeats 1600000 in
/-- C5: for every frame and every config with an in-bounds master region, if
candidate `i`'s aggregate strictly exceeds every other candidate's aggregate
and the threshold, the result is the label bound to `i` (0→RED, 1→YELLOW,
2→GREEN). Aggregates are means of 8-bit luma samples, hence non-negative
(hypothesis `hnn`). -/
theorem C5_strict_winner_labelled (frameW frameH : ℤ) (c : AppConfig) (l : Fin 3 → ℚ) (i : Fin 3)
    (hin : masterRoiOutOfBounds frameW frameH c = false)
    (hnn : ∀ j : Fin 3, 0 ≤ l j)
    (hwin : ∀ j : Fin 3, j ≠ i → l j < l i)
    (hthr : (c.min_brightness_threshold : ℚ) < l i) :
    (classifyFrame frameW frameH c l).1 = labelOf i := by
  fin_cases i
  · simp only [classifyFrame, hin, Bool.false_eq_true, if_false, classifyFromLumas,
      brightestScan, scanStep, labelOf]
    split_ifs <;> simp_all <;>
      linarith [hnn 0, hnn 1, hnn 2, hwin 1 (by decide), hwin 2 (by decide)]
  · simp only [classifyFrame, hin, Bool.false_eq_true, if_false, classifyFromLumas,
      brightestScan, scanStep, labelOf]
    split_ifs <;> simp_all <;>
      linarith [hnn 0, hnn 1, hnn 2, hwin 0 (by decide), hwin 2 (by decide)]
  · simp only [classifyFrame, hin, Bool.false_eq_true, if_false, classifyFromLumas,
      brightestScan, scanStep, labelOf]
    split_ifs <;> simp_all <;>
      linarith [hnn 0, hnn 1, hnn 2, hwin 0 (by decide), hwin 1 (by decide)]

/-- Witness for C5 at the default config, aggregates (0, 0, 200) and winner
index 2, above the threshold 80: the result is GREEN. -/
theorem C5_strict_winner_labelled_witness :
    (classifyFrame 1280 720 defaultConfig ![0, 0, 200]).1 = labelOf 2 :=
  C5_strict_winner_labelled 1280 720 defaultConfig ![0, 0, 200] 2
    (by decide) (by decide) (by decide) (by decide)

/-- C6 counterexample: the claim as stated fails when the tied maximal
aggregate is 0 and the threshold is negative (reachable: all-black lamp
regions and a config uploaded with threshold -1). All three candidates tie at
aggregate 0, which is above the threshold, yet the result is UNKNOWN — not the
label of the lowest index (RED) — because the scan starting at `max_luma = 0`
selects no candidate unless some aggregate strictly exceeds 0
(main.cpp:431-447). -/
theorem C6_zero_tie_counterexample :
    masterRoiOutOfBounds 1280 720 { defaultConfig with min_brightness_threshold := -1 } = false ∧
    ((0 : ℚ) > (((-1 : ℤ) : ℚ))) ∧
    (classifyFrame 1280 720 { defaultConfig with min_brightness_threshold := -1 } ![0, 0, 0]).1 =
      .UNKNOWN ∧
    TrafficState.UNKNOWN ≠ labelOf 0 := by decide

set_option maxHeartbeats 1600000 in
/-- C6 amended: if two or more candidates have exactly equal maximal
aggregates that are above the threshold and strictly positive, the candidate
with the lowest index wins and its label is returned (strict `>` comparison
only, main.cpp:444). -/
theorem C6_tie_lowest_wins (frameW frameH : ℤ) (c : AppConfig) (l : Fin 3 → ℚ) (i : Fin 3)
    (hin : masterRoiOutOfBounds frameW frameH c = false)
    (hpos : 0 < l i)
    (hthr : (c.min_brightness_threshold : ℚ) < l i)
    (hmax : ∀ j : Fin 3, l j ≤ l i)
    (hlow : ∀ j : Fin 3, (j : ℕ) < (i : ℕ) → l j < l i)
    (htie : ∃ j : Fin 3, j ≠ i ∧ l j = l i) :
    (classifyFrame frameW frameH c l).1 = labelOf i := by
  fin_cases i
  · simp only [classifyFrame, hin, Bool.false_eq_true, if_false, classifyFromLumas,
      brightestScan, scanStep, labelOf]
    split_ifs <;> simp_all <;>
      linarith [hmax 0, hmax 1, hmax 2]
  · simp only [classifyFrame, hin, Bool.false_eq_true, if_false, classifyFromLumas,
      brightestScan, scanStep, labelOf]
    split_ifs <;> simp_all <;>
      linarith [hmax 0, hmax 1, hmax 2, hlow 0 (by decide)]
  · simp only [classifyFrame, hin, Bool.false_eq_true, if_false, classifyFromLumas,
      brightestScan, scanStep, labelOf]
    split_ifs <;> simp_all

/-- Witness for C6 amended: candidates 0 and 1 tie at aggregate 5, above the
threshold 1 and above 0; the lowest index 0 wins and RED is returned. -/
theorem C6_tie_lowest_wins_witness :
    (classifyFrame 1280 720 { defaultConfig with min_brightness_threshold := 1 }
      ![5, 5, 0]).1 = labelOf 0 :=
  C6_tie_lowest_wins 1280 720 { defaultConfig with min_brightness_threshold := 1 } ![5, 5, 0] 0
    (by decide) (by decide) (by decide) (by decide) (by decide) ⟨1, by decide, by decide⟩

/-- C7: an out-of-bounds master region (non-positive width or height, negative
origin, or overrunning the right or bottom frame edge) short-circuits to
UNKNOWN with the neutral gray marker, for any frame dimensions; the
per-candidate analysis is skipped — the result does not depend on the
aggregates at all (main.cpp:407-416). -/
theorem C7_oob_master_roi_unknown (frameW frameH : ℤ) (c : AppConfig) (l l' : Fin 3 → ℚ)
    (h : masterRoiOutOfBounds frameW frameH c = true) :
    classifyFrame frameW frameH c l = (.UNKNOWN, (128, 128, 128)) ∧
    classifyFrame frameW frameH c l = classifyFrame frameW frameH c l' := by
  constructor <;> simp [classifyFrame, h]

/-- Witness for C7: the default config shifted to x = 1250 overruns the right
edge of a 1280x720 frame (1250 + 82 > 1280); even with saturated aggregates
the result is UNKNOWN with the gray marker. -/
theorem C7_oob_master_roi_unknown_witness :
    masterRoiOutOfBounds 1280 720 { defaultConfig with master_roi_x := 1250 } = true ∧
    classifyFrame 1280 720 { defaultConfig with master_roi_x := 1250 } ![255, 255, 255] =
      (.UNKNOWN, (128, 128, 128)) :=
  ⟨by decide,
    (C7_oob_master_roi_unknown 1280 720 { defaultConfig with master_roi_x := 1250 }
      ![255, 255, 255] ![0, 0, 0] (by decide)).1⟩

/-- Posting never touches the in-memory configuration, only the file and the
flag. -/
lemma foldl_postConfig_snoc (ps : List (Option ConfigDoc)) (p : Option ConfigDoc) (s : LoopState) :
    (ps ++ [p]).foldl postConfig s = { flag := true, file := p, config := s.config } := by
  induction ps generalizing s with
  | nil => rfl
  | cons q qs ih =>
      rw [List.cons_append, List.foldl_cons, ih]
      rfl

/-- C8: setting the reload signal N ≥ 1 times (posts `ps ++ [p]`) before the
classification loop next checks it results in exactly one reload, performed
from the config document `p` current at observation time; the loop clears the
flag, and the immediately following check performs zero reloads
(main.cpp:150-152, 365-370). -/
theorem C8_reload_coalesces (s : LoopState) (ps : List (Option ConfigDoc)) (p : Option ConfigDoc) :
    checkReload ((ps ++ [p]).foldl postConfig s) =
      ({ flag := false, file := p, config := load_config p s.config }, 1) ∧
    (checkReload (checkReload ((ps ++ [p]).foldl postConfig s)).1).2 = 0 := by
  rw [foldl_postConfig_snoc]
  exact ⟨rfl, rfl⟩

/-- C10: for every frame and every in-bounds config, if all three aggregates
are exactly 0 the result is UNKNOWN regardless of the threshold — including a
negative threshold that the maximal aggregate 0 strictly exceeds — because no
candidate index is ever selected when no aggregate strictly exceeds the
initial `max_luma = 0` (main.cpp:431-455). -/
theorem C10_all_zero_aggregates_unknown (frameW frameH : ℤ) (c : AppConfig) (l : Fin 3 → ℚ)
    (hin : masterRoiOutOfBounds frameW frameH c = false)
    (hz : ∀ i : Fin 3, l i = 0) :
    (classifyFrame frameW frameH c l).1 = .UNKNOWN := by
  have h0 := hz 0
  have h1 := hz 1
  have h2 := hz 2
  simp only [classifyFrame, hin, Bool.false_eq_true, if_false, classifyFromLumas,
    brightestScan, scanStep, h0, h1, h2]
  split_ifs <;> simp_all

/-- Witness for C10 at a config with the negative threshold -5 (which the
maximal aggregate 0 strictly exceeds) and all aggregates 0: UNKNOWN. -/
theorem C10_all_zero_aggregates_unknown_witness :
    masterRoiOutOfBounds 1280 720 { defaultConfig with min_brightness_threshold := -5 } = false ∧
    (((-5 : ℤ) : ℚ) < 0) ∧
    (classifyFrame 1280 720 { defaultConfig with min_brightness_threshold := -5 }
      ![0, 0, 0]).1 = .UNKNOWN :=
  ⟨by decide, by decide,
    C10_all_zero_aggregates_unknown 1280 720 { defaultConfig with min_brightness_threshold := -5 }
      ![0, 0, 0] (by decide) (by decide)⟩
